import Mathlib

/-!
Verification development for the survey webpage (client script and server).

The definitions below are a shallow embedding of the navigation and state
management logic of the client script (page navigation, history shadowing,
scroll memory, persisted session state, submission retry) and of the server
endpoints (message dedup for the chat relay, the submit endpoint guard).
Browser-history side effects (pushState, replaceState, forward, back) are
recorded as an explicit effect list instead of being performed.
-/

namespace SurveyWeb

/-- Configuration constant: the number of pages in the survey. -/
def totalPages : Int := 9

/-- Configuration constant: the page number where the chatbot appears. -/
def chatbotPage : Int := 4

/-- One entry of the historyStates shadow stack: an object with a page field. -/
structure HistoryEntry where
  page : Int
deriving Repr, DecidableEq

/-- Browser-history side effects issued by the navigation functions. -/
inductive NavEffect where
  | pushState (page : Int)
  | replaceState (page : Int)
  | forward
  | back
deriving Repr, DecidableEq

/-- The mutable client state touched by the navigation logic: the module-level
variables currentPage, historyStates, scrollPositions and bypassPopState, the
registration status of the popstate listener, and the sessionStorage keys
written by saveNavigationState and saveScrollPositions. -/
structure SurveyState where
  currentPage : Int
  historyStates : List HistoryEntry
  scrollPositions : List (Int × Int)
  bypassPopState : Bool
  popStateListenerAttached : Bool
  storedCurrentPage : Option Int
  storedHistoryStates : Option (List HistoryEntry)
  storedScrollPositions : Option (List (Int × Int))
deriving Repr, DecidableEq

/-- Membership test of a page in the shadow stack:
historyStates.some(obj => obj.page === p). -/
def pageMem (hs : List HistoryEntry) (p : Int) : Bool :=
  hs.any (fun en => en.page == p)

/-- JS object field assignment scrollPositions[k] = v on the scroll map. -/
def setScroll (m : List (Int × Int)) (k v : Int) : List (Int × Int) :=
  if m.any (fun q => q.1 == k) then
    m.map (fun q => if q.1 == k then (k, v) else q)
  else
    m ++ [(k, v)]

/-- saveNavigationState: writes currentPage and historyStates to
sessionStorage. -/
def saveNavigationState (s : SurveyState) : SurveyState :=
  { s with
    storedCurrentPage := some s.currentPage
    storedHistoryStates := some s.historyStates }

/-- saveScrollPositions(pageNumber): records the current scroll offset for
pageNumber and persists the scroll map, skipped entirely when the current
page is the chatbot page. The scroll offset window.scrollY is an input. -/
def saveScrollPositions (scrollY pageNumber : Int) (s : SurveyState) : SurveyState :=
  if s.currentPage == chatbotPage then s
  else
    let sp := setScroll s.scrollPositions pageNumber scrollY
    { s with scrollPositions := sp, storedScrollPositions := some sp }

/-- pushPageToHistory(page): appends a new entry to historyStates, pushes a
native history record and persists the navigation state. -/
def pushPageToHistory (page : Int) (s : SurveyState) : SurveyState × List NavEffect :=
  let s1 := { s with historyStates := s.historyStates ++ [{ page := page }] }
  (saveNavigationState s1, [NavEffect.pushState page])

/-- First block of nextButtonLogic: when currentPage is below totalPages,
save the scroll offset, increment currentPage, persist the navigation
state. -/
def advancePhase (scrollY : Int) (s : SurveyState) : SurveyState :=
  if s.currentPage < totalPages then
    let sa := saveScrollPositions scrollY s.currentPage s
    saveNavigationState { sa with currentPage := sa.currentPage + 1 }
  else s

/-- Second block shared verbatim by nextButtonLogic and moveToFinalPage:
when the current page already has a shadow entry, set bypassPopState and
drive the native history one step forward; otherwise push the page as a new
entry. -/
def historySyncForward (s1 : SurveyState) : SurveyState × List NavEffect :=
  if pageMem s1.historyStates s1.currentPage then
    ({ s1 with bypassPopState := true }, [NavEffect.forward])
  else
    pushPageToHistory s1.currentPage s1

/-- nextButtonLogic: the advance block followed by the unconditional history
synchronization block. -/
def nextButtonLogic (scrollY : Int) (s : SurveyState) : SurveyState × List NavEffect :=
  historySyncForward (advancePhase scrollY s)

/-- backButtonLogic: only when 1 < currentPage < totalPages, saves the scroll
offset, decrements currentPage, persists, sets bypassPopState and drives the
native history one step back. -/
def backButtonLogic (scrollY : Int) (s : SurveyState) : SurveyState × List NavEffect :=
  if 1 < s.currentPage ∧ s.currentPage < totalPages then
    let sa := saveScrollPositions scrollY s.currentPage s
    let sb := saveNavigationState { sa with currentPage := sa.currentPage - 1 }
    ({ sb with bypassPopState := true }, [NavEffect.back])
  else (s, [])

/-- First block of moveToFinalPage: when currentPage is below totalPages,
save the scroll offset, jump currentPage to totalPages, persist. -/
def jumpToFinalPhase (scrollY : Int) (s : SurveyState) : SurveyState :=
  if s.currentPage < totalPages then
    let sa := saveScrollPositions scrollY s.currentPage s
    saveNavigationState { sa with currentPage := totalPages }
  else s

/-- moveToFinalPage: the jump block followed by the same unconditional
history synchronization block as nextButtonLogic. -/
def moveToFinalPage (scrollY : Int) (s : SurveyState) : SurveyState × List NavEffect :=
  historySyncForward (jumpToFinalPhase scrollY s)

/-- initializeHistory(page): appends an entry for page to historyStates when
no entry with the current page exists, overwrites the current native history
record and persists.  At its only call site the argument equals currentPage. -/
def initializeHistory (page : Int) (s : SurveyState) : SurveyState × List NavEffect :=
  let hs :=
    if pageMem s.historyStates s.currentPage then s.historyStates
    else s.historyStates ++ [{ page := page }]
  (saveNavigationState { s with historyStates := hs }, [NavEffect.replaceState page])

/-- handlePopState(event): (d) when bypassPopState is set, clear it and
return; (b) when on page 1 with destination page 2 and the consent checkbox
unchecked, set bypassPopState and counter-navigate back; (c) when on the
final page, detach the popstate listener and counter-navigate back;
(a) otherwise save the scroll offset and move currentPage one step towards
the destination page, then persist. -/
def handlePopState (eventPage : Int) (consentIsChecked : Bool) (scrollY : Int)
    (s : SurveyState) : SurveyState × List NavEffect :=
  if s.bypassPopState then
    ({ s with bypassPopState := false }, [])
  else if s.currentPage = 1 ∧ eventPage = 2 ∧ consentIsChecked = false then
    ({ s with bypassPopState := true }, [NavEffect.back])
  else if s.currentPage = totalPages then
    ({ s with popStateListenerAttached := false }, [NavEffect.back])
  else if eventPage < s.currentPage then
    let sa := saveScrollPositions scrollY s.currentPage s
    (saveNavigationState { sa with currentPage := sa.currentPage - 1 }, [])
  else
    let sa := saveScrollPositions scrollY s.currentPage s
    (saveNavigationState { sa with currentPage := sa.currentPage + 1 }, [])

/-- A popstate notification delivered by the browser: the destination entry
page together with the environment read by the handler. -/
structure PopEvent where
  page : Int
  consentIsChecked : Bool
  scrollY : Int
deriving Repr, DecidableEq

/-- The browser dispatch of a popstate event: the handler runs only while it
is registered as the popstate listener. -/
def dispatchPopState (ev : PopEvent) (s : SurveyState) : SurveyState × List NavEffect :=
  if s.popStateListenerAttached then
    handlePopState ev.page ev.consentIsChecked ev.scrollY s
  else (s, [])

/-- Runs a sequence of popstate notifications, keeping only the state. -/
def runPopEvents (evs : List PopEvent) (s : SurveyState) : SurveyState :=
  evs.foldl (fun st ev => (dispatchPopState ev st).1) s

/-- The operations of the navigation state machine that can run after page
initialization. -/
inductive SurveyOp where
  | next (scrollY : Int)
  | back (scrollY : Int)
  | final (scrollY : Int)
  | initHistory
  | pop (ev : PopEvent)
deriving Repr, DecidableEq

/-- Applies one operation to the state (effects discarded).  initializeHistory
is invoked with currentPage, exactly as at its call site. -/
def applyOp (s : SurveyState) : SurveyOp → SurveyState
  | SurveyOp.next y => (nextButtonLogic y s).1
  | SurveyOp.back y => (backButtonLogic y s).1
  | SurveyOp.final y => (moveToFinalPage y s).1
  | SurveyOp.initHistory => (initializeHistory s.currentPage s).1
  | SurveyOp.pop ev => (dispatchPopState ev s).1

/-- The module-level initial values of the client script. -/
def initialSurveyState : SurveyState :=
  { currentPage := 1
    historyStates := []
    scrollPositions := []
    bypassPopState := false
    popStateListenerAttached := true
    storedCurrentPage := none
    storedHistoryStates := none
    storedScrollPositions := none }

/-- Runs a sequence of operations from the initial state. -/
def runOps (ops : List SurveyOp) : SurveyState :=
  ops.foldl applyOp initialSurveyState

/-- The list of page values of a shadow stack. -/
def pagesOf (hs : List HistoryEntry) : List Int :=
  hs.map (fun en => en.page)

/-! ### restoreState -/

/-- The sessionStorage content read by restoreState.  getItem returns null
(modelled none) or a string; the historyStates and scrollPositions items are
modelled already decoded from JSON, exactly as stored by
saveNavigationState and saveScrollPositions. -/
structure SessionStorageNav where
  currentPageItem : Option String
  historyStatesItem : Option (List HistoryEntry)
  scrollPositionsItem : Option (List (Int × Int))
deriving Repr, DecidableEq

/-- The navigation state resulting from restoreState.  A JS number is
modelled as Option Int, none standing for NaN. -/
structure RestoredNavState where
  currentPageVal : Option Int
  historyStatesVal : List HistoryEntry
  scrollPositionsVal : List (Int × Int)
deriving Repr, DecidableEq

/-- The numeric values of the leading decimal digits of a character list. -/
def leadingDigits : List Char → List Nat
  | [] => []
  | c :: rest => if c.isDigit then (c.toNat - 48) :: leadingDigits rest else []

/-- Decimal value of a digit list. -/
def digitsToNat (ds : List Nat) : Nat :=
  ds.foldl (fun a d => a * 10 + d) 0

/-- Value of the leading digit block, none when the block is empty. -/
def leadingDigitsVal (cs : List Char) : Option Nat :=
  let ds := leadingDigits cs
  if ds.isEmpty then none else some (digitsToNat ds)

/-- JS parseInt(s, 10): skip leading whitespace, read an optional sign and
then the leading decimal digits; NaN (modelled none) when no digit follows. -/
def parseIntJs (s : String) : Option Int :=
  let cs := s.data.dropWhile Char.isWhitespace
  match cs with
  | [] => none
  | c :: rest =>
    if c = Char.ofNat 45 then (leadingDigitsVal rest).map (fun n => -(n : Int))
    else if c = Char.ofNat 43 then (leadingDigitsVal rest).map (fun n => (n : Int))
    else (leadingDigitsVal cs).map (fun n => (n : Int))

/-- restoreState: each saved item overrides the default only when present
(and, for the currentPage string, non-empty, since an empty string is falsy);
a present currentPage string is assigned parseInt(value, 10) unchecked.
Defaults: currentPage 1, empty shadow stack, empty scroll map. -/
def restoreState (st : SessionStorageNav) : RestoredNavState :=
  let cur : Option Int :=
    match st.currentPageItem with
    | none => some 1
    | some str => if str = "" then some 1 else parseIntJs str
  { currentPageVal := cur
    historyStatesVal := st.historyStatesItem.getD []
    scrollPositionsVal := st.scrollPositionsItem.getD [] }

/-! ### submitData and submitButtonLogic -/

/-- Retry loop of submitData: results gives the outcome of the i-th fetch
attempt; remaining counts the attempts left.  Returns the response or the
last error (none when no attempt ran), the number of fetch attempts made,
and the total delay in ms (a fixed 500 ms awaited after each failure). -/
def submitDataAux (results : Nat → Except String String) :
    Nat → Nat → Option String → Except (Option String) String × Nat × Nat
  | _, 0, lastError => (Except.error lastError, 0, 0)
  | i, remaining + 1, _ =>
    match results i with
    | Except.ok resp => (Except.ok resp, 1, 0)
    | Except.error e =>
      let r := submitDataAux results (i + 1) remaining (some e)
      (r.1, r.2.1 + 1, r.2.2 + 500)

/-- submitData(data, retries): up to retries fetch attempts, 500 ms delay
after each failed attempt, first success returned, last error thrown after
exhaustion. -/
def submitData (results : Nat → Except String String) (retries : Nat) :
    Except (Option String) String × Nat × Nat :=
  submitDataAux results 0 retries none

/-- Outcome of submitButtonLogic: the resulting navigation state, whether
the submit error notification is shown, whether clearState ran, and the
browser-history effects issued. -/
structure SubmitOutcome where
  finalState : SurveyState
  submitErrorShown : Bool
  stateCleared : Bool
  navEffects : List NavEffect
deriving Repr, DecidableEq

/-- submitButtonLogic: awaits submitData(data, 4); on success moves to the
final page and clears the participant data; on exhausted retries shows the
submit error notification and leaves the state untouched. -/
def submitButtonLogic (results : Nat → Except String String) (scrollY : Int)
    (s : SurveyState) : SubmitOutcome :=
  match (submitData results 4).1 with
  | Except.ok _ =>
    let r := moveToFinalPage scrollY s
    { finalState := r.1, submitErrorShown := false, stateCleared := true,
      navEffects := r.2 }
  | Except.error _ =>
    { finalState := s, submitErrorShown := true, stateCleared := false,
      navEffects := [] }

/-! ### Server: /sendmessage dedup -/

/-- A value of the processedMessages map: insertion time and the message id
returned by the direct line api. -/
structure DedupEntry where
  timestamp : Int
  id : String
deriving Repr, DecidableEq

/-- The server-side relay state: the in-memory processedMessages map,
modelled as an association list in insertion order. -/
structure RelayState where
  processedMessages : List (String × DedupEntry)
deriving Repr, DecidableEq

/-- Map lookup (Map.prototype.get / has). -/
def mapGet (m : List (String × DedupEntry)) (k : String) : Option DedupEntry :=
  match m with
  | [] => none
  | (k0, v0) :: rest => if k0 = k then some v0 else mapGet rest k

/-- Map update (Map.prototype.set): replaces the binding of an existing key,
otherwise appends. -/
def mapSet (m : List (String × DedupEntry)) (k : String) (v : DedupEntry) :
    List (String × DedupEntry) :=
  match m with
  | [] => [(k, v)]
  | (k0, v0) :: rest =>
    if k0 = k then (k, v) :: rest else (k0, v0) :: mapSet rest k v

/-- The message key of the /sendmessage endpoint. -/
def messageKey (conversationId clientSideMsgId : String) : String :=
  conversationId ++ "::" ++ clientSideMsgId

/-- HTTP response of the /sendmessage endpoint. -/
inductive SendHttpResponse where
  | duplicateJson (id : String)
  | dataJson (id : String)
  | serverError (msg : String)
deriving Repr, DecidableEq

/-- The /sendmessage handler: when the message key is already recorded,
answer with the stored id and perform no outbound call; otherwise forward
the message to the direct line api (outcome given by directLineResult,
counted as one outbound call), record the returned id on success, record
nothing on failure.  Returns the response, the number of outbound calls
performed, and the new relay state. -/
def sendMessage (s : RelayState) (conversationId clientSideMsgId : String)
    (now : Int) (directLineResult : Except String String) :
    SendHttpResponse × Nat × RelayState :=
  let key := messageKey conversationId clientSideMsgId
  match mapGet s.processedMessages key with
  | some storedEntry => (SendHttpResponse.duplicateJson storedEntry.id, 0, s)
  | none =>
    match directLineResult with
    | Except.ok newId =>
      (SendHttpResponse.dataJson newId, 1,
        { processedMessages :=
            mapSet s.processedMessages key { timestamp := now, id := newId } })
    | Except.error msg => (SendHttpResponse.serverError msg, 1, s)

/-! ### Server: /submit endpoint and assignGroup -/

/-- A JS value as found in a parsed JSON request body. -/
inductive JsValue where
  | undef
  | nullV
  | boolV (b : Bool)
  | numV (n : Int)
  | strV (s : String)
deriving Repr, DecidableEq

/-- JS falsiness: undefined, null, false, 0 and the empty string are falsy. -/
def jsFalsy : JsValue → Bool
  | JsValue.undef => true
  | JsValue.nullV => true
  | JsValue.boolV b => !b
  | JsValue.numV n => n == 0
  | JsValue.strV s => s == ""

/-- The fields of the /submit request body destructured by the handler. -/
structure SubmitBody where
  participantId : JsValue
  treatmentGroup : JsValue
  conversationLog : JsValue
deriving Repr, DecidableEq

/-- A row inserted into survey_responses. -/
structure InsertedRow where
  participantId : JsValue
  treatmentGroup : JsValue
  conversationLog : JsValue
deriving Repr, DecidableEq

/-- The /submit handler: reject with 400 and insert nothing when any of
participantId, treatmentGroup, conversationLog is falsy; otherwise insert
the row and answer 200, or answer 500 when the database query fails. -/
def appPostSubmit (body : SubmitBody) (dbOk : Bool) : Nat × Option InsertedRow :=
  if jsFalsy body.participantId || jsFalsy body.treatmentGroup
      || jsFalsy body.conversationLog then
    (400, none)
  else if dbOk then
    (200, some { participantId := body.participantId,
                 treatmentGroup := body.treatmentGroup,
                 conversationLog := body.conversationLog })
  else (500, none)

/-- Server configuration constant: whether the treatment group is random. -/
def randomTreatment : Bool := true

/-- Server configuration constant: the static fallback treatment group. -/
def treatmentFallback : Int := 1

/-- assignGroup: with randomTreatment, 0 or 1 depending on whether
Math.random() came out below one half; otherwise the fallback value. -/
def assignGroup (randBelowHalf : Bool) : Int :=
  if randomTreatment then (if randBelowHalf then 0 else 1)
  else treatmentFallback

/-! ### Concrete states used by counterexamples -/

/-- A session that has visited every page and sits on the terminal page,
with the suppression flag clear. -/
def terminalStateWithHistory : SurveyState :=
  { currentPage := 9
    historyStates :=
      [{ page := 1 }, { page := 2 }, { page := 3 }, { page := 4 },
       { page := 5 }, { page := 6 }, { page := 7 }, { page := 8 }, { page := 9 }]
    scrollPositions := []
    bypassPopState := false
    popStateListenerAttached := true
    storedCurrentPage := some 9
    storedHistoryStates :=
      some [{ page := 1 }, { page := 2 }, { page := 3 }, { page := 4 },
            { page := 5 }, { page := 6 }, { page := 7 }, { page := 8 }, { page := 9 }]
    storedScrollPositions := none }

/-- A session on page 1 with the suppression flag set. -/
def flaggedPageOneState : SurveyState :=
  { initialSurveyState with bypassPopState := true }

/-- A results oracle whose fetch attempts all fail. -/
def alwaysFailResults : Nat → Except String String :=
  fun _ => Except.error "network failure"

/-! ### Helper lemmas -/

theorem saveScrollPositions_historyStates (y p : Int) (s : SurveyState) :
    (saveScrollPositions y p s).historyStates = s.historyStates := by
  unfold saveScrollPositions
  split <;> rfl

theorem saveScrollPositions_currentPage (y p : Int) (s : SurveyState) :
    (saveScrollPositions y p s).currentPage = s.currentPage := by
  unfold saveScrollPositions
  split <;> rfl

theorem saveNavigationState_historyStates (s : SurveyState) :
    (saveNavigationState s).historyStates = s.historyStates := rfl

theorem saveNavigationState_currentPage (s : SurveyState) :
    (saveNavigationState s).currentPage = s.currentPage := rfl

theorem advancePhase_historyStates (y : Int) (s : SurveyState) :
    (advancePhase y s).historyStates = s.historyStates := by
  unfold advancePhase
  split
  · rw [saveNavigationState_historyStates, saveScrollPositions_historyStates]
  · rfl

theorem jumpToFinalPhase_historyStates (y : Int) (s : SurveyState) :
    (jumpToFinalPhase y s).historyStates = s.historyStates := by
  unfold jumpToFinalPhase
  split
  · rw [saveNavigationState_historyStates, saveScrollPositions_historyStates]
  · rfl

theorem backButtonLogic_historyStates (y : Int) (s : SurveyState) :
    (backButtonLogic y s).1.historyStates = s.historyStates := by
  unfold backButtonLogic
  split
  · rw [saveNavigationState_historyStates, saveScrollPositions_historyStates]
  · rfl

theorem handlePopState_historyStates (e : Int) (c : Bool) (y : Int) (s : SurveyState) :
    (handlePopState e c y s).1.historyStates = s.historyStates := by
  unfold handlePopState
  split
  · rfl
  split
  · rfl
  split
  · rfl
  split
  · rw [saveNavigationState_historyStates, saveScrollPositions_historyStates]
  · rw [saveNavigationState_historyStates, saveScrollPositions_historyStates]

theorem not_mem_pagesOf_of_pageMem_false {hs : List HistoryEntry} {p : Int}
    (h : pageMem hs p = false) : p ∉ pagesOf hs := by
  intro hmem
  rw [pagesOf, List.mem_map] at hmem
  obtain ⟨en, hen, hpage⟩ := hmem
  have htrue : pageMem hs p = true := by
    rw [pageMem, List.any_eq_true]
    exact ⟨en, hen, by simp [hpage]⟩
  rw [h] at htrue
  exact Bool.false_ne_true htrue

theorem nodup_pagesOf_append {hs : List HistoryEntry} {p : Int}
    (h : (pagesOf hs).Nodup) (hp : pageMem hs p = false) :
    (pagesOf (hs ++ [{ page := p }])).Nodup := by
  have hne := not_mem_pagesOf_of_pageMem_false hp
  rw [pagesOf, List.map_append, List.nodup_append]
  refine ⟨h, List.nodup_singleton _, ?_⟩
  intro x hx hx'
  rw [List.map_singleton, List.mem_singleton] at hx'
  subst hx'
  exact hne hx

theorem historySyncForward_nodup (s1 : SurveyState)
    (h : (pagesOf s1.historyStates).Nodup) :
    (pagesOf (historySyncForward s1).1.historyStates).Nodup := by
  unfold historySyncForward
  by_cases hm : pageMem s1.historyStates s1.currentPage
  · rw [if_pos hm]
    exact h
  · rw [if_neg hm]
    unfold pushPageToHistory
    rw [saveNavigationState_historyStates]
    exact nodup_pagesOf_append h (by simpa using hm)

theorem applyOp_nodup (s : SurveyState) (op : SurveyOp)
    (h : (pagesOf s.historyStates).Nodup) :
    (pagesOf (applyOp s op).historyStates).Nodup := by
  cases op with
  | next y =>
    show (pagesOf (nextButtonLogic y s).1.historyStates).Nodup
    rw [nextButtonLogic]
    exact historySyncForward_nodup _ (by rw [advancePhase_historyStates]; exact h)
  | back y =>
    show (pagesOf (backButtonLogic y s).1.historyStates).Nodup
    rw [backButtonLogic_historyStates]
    exact h
  | final y =>
    show (pagesOf (moveToFinalPage y s).1.historyStates).Nodup
    rw [moveToFinalPage]
    exact historySyncForward_nodup _ (by rw [jumpToFinalPhase_historyStates]; exact h)
  | initHistory =>
    show (pagesOf (initializeHistory s.currentPage s).1.historyStates).Nodup
    unfold initializeHistory
    rw [saveNavigationState_historyStates]
    by_cases hm : pageMem s.historyStates s.currentPage
    · rw [if_pos hm]
      exact h
    · rw [if_neg hm]
      exact nodup_pagesOf_append h (by simpa using hm)
  | pop ev =>
    show (pagesOf (dispatchPopState ev s).1.historyStates).Nodup
    unfold dispatchPopState
    split
    · rw [handlePopState_historyStates]
      exact h
    · exact h

theorem runPopEvents_detached (evs : List PopEvent) (s : SurveyState)
    (h : s.popStateListenerAttached = false) : runPopEvents evs s = s := by
  induction evs generalizing s with
  | nil => rfl
  | cons ev rest ih =>
    have hd : (dispatchPopState ev s).1 = s := by
      unfold dispatchPopState
      rw [if_neg]
      rw [h]
      exact Bool.false_ne_true
    show runPopEvents rest (dispatchPopState ev s).1 = s
    rw [hd]
    exact ih s h

theorem mapGet_mapSet_self (m : List (String × DedupEntry)) (k : String) (v : DedupEntry) :
    mapGet (mapSet m k v) k = some v := by
  induction m with
  | nil => simp [mapSet, mapGet]
  | cons p rest ih =>
    obtain ⟨k0, v0⟩ := p
    by_cases hk : k0 = k
    · simp [mapSet, mapGet, hk]
    · simp [mapSet, mapGet, hk, ih]

theorem submitDataAux_zero (results : Nat → Except String String) (i : Nat)
    (le : Option String) : submitDataAux results i 0 le = (Except.error le, 0, 0) := rfl

theorem submitDataAux_succ_ok (results : Nat → Except String String) (i r : Nat)
    (le : Option String) (resp : String) (h : results i = Except.ok resp) :
    submitDataAux results i (r + 1) le = (Except.ok resp, 1, 0) := by
  unfold submitDataAux
  rw [h]

theorem submitDataAux_succ_err (results : Nat → Except String String) (i r : Nat)
    (le : Option String) (e : String) (h : results i = Except.error e) :
    submitDataAux results i (r + 1) le =
      ((submitDataAux results (i + 1) r (some e)).1,
       (submitDataAux results (i + 1) r (some e)).2.1 + 1,
       (submitDataAux results (i + 1) r (some e)).2.2 + 500) := by
  conv_lhs => rw [submitDataAux]
  rw [h]

theorem submitDataAux_attempts_le (results : Nat → Except String String) :
    ∀ (remaining i : Nat) (le : Option String),
    (submitDataAux results i remaining le).2.1 ≤ remaining := by
  intro remaining
  induction remaining with
  | zero =>
    intro i le
    rw [submitDataAux_zero]
  | succ r ih =>
    intro i le
    cases hres : results i with
    | ok resp =>
      rw [submitDataAux_succ_ok results i r le resp hres]
      exact Nat.succ_le_succ (Nat.zero_le r)
    | error e =>
      rw [submitDataAux_succ_err results i r le e hres]
      exact Nat.succ_le_succ (ih (i + 1) (some e))

theorem submitDataAux_first_ok (results : Nat → Except String String) :
    ∀ (k i remaining : Nat) (le : Option String) (v : String),
    (∀ j, j < k → ∃ e, results (i + j) = Except.error e) →
    results (i + k) = Except.ok v → k < remaining →
    submitDataAux results i remaining le = (Except.ok v, k + 1, 500 * k) := by
  intro k
  induction k with
  | zero =>
    intro i remaining le v _ hok hlt
    obtain ⟨r, rfl⟩ : ∃ r, remaining = r + 1 :=
      ⟨remaining - 1, (Nat.succ_pred_eq_of_pos hlt).symm⟩
    rw [submitDataAux_succ_ok results i r le v (by simpa using hok)]
  | succ k ih =>
    intro i remaining le v hf hok hlt
    obtain ⟨r, rfl⟩ : ∃ r, remaining = r + 1 :=
      ⟨remaining - 1, (Nat.succ_pred_eq_of_pos (Nat.lt_of_le_of_lt (Nat.zero_le _) hlt)).symm⟩
    obtain ⟨e, he⟩ := hf 0 (Nat.succ_pos k)
    rw [submitDataAux_succ_err results i r le e (by simpa using he)]
    have hrec := ih (i + 1) r (some e) v
      (fun j hj => by
        obtain ⟨e', he'⟩ := hf (j + 1) (Nat.succ_lt_succ hj)
        exact ⟨e', by rwa [show i + (j + 1) = i + 1 + j by omega] at he'⟩)
      (by rwa [show i + 1 + k = i + (k + 1) by omega])
      (Nat.lt_of_succ_lt_succ hlt)
    rw [hrec]
    simp [Nat.mul_succ]

theorem submitDataAux_all_err (results : Nat → Except String String) :
    ∀ (remaining i : Nat) (le : Option String),
    1 ≤ remaining →
    (∀ j, j < remaining → ∃ e, results (i + j) = Except.error e) →
    ∃ e, results (i + (remaining - 1)) = Except.error e ∧
      submitDataAux results i remaining le
        = (Except.error (some e), remaining, 500 * remaining) := by
  intro remaining
  induction remaining with
  | zero =>
    intro i le h
    exact absurd h (by decide)
  | succ r ih =>
    intro i le _ hf
    obtain ⟨e0, he0⟩ := hf 0 (Nat.succ_pos r)
    by_cases hr : r = 0
    · subst hr
      refine ⟨e0, by simpa using he0, ?_⟩
      rw [submitDataAux_succ_err results i 0 le e0 (by simpa using he0),
        submitDataAux_zero]
    · have hr1 : 1 ≤ r := Nat.one_le_iff_ne_zero.mpr hr
      obtain ⟨e, he, heq⟩ := ih (i + 1) (some e0) hr1
        (fun j hj => by
          obtain ⟨e', he'⟩ := hf (j + 1) (Nat.succ_lt_succ hj)
          exact ⟨e', by rwa [show i + (j + 1) = i + 1 + j by omega] at he'⟩)
      refine ⟨e, ?_, ?_⟩
      · rwa [show i + (r + 1 - 1) = i + 1 + (r - 1) by omega]
      · rw [submitDataAux_succ_err results i r le e0 (by simpa using he0), heq]
        simp [Nat.mul_succ]

/-! ### Claim theorems -/

/-- Claim C1 (amended): backButtonLogic at currentPage 1 is a complete
no-op; nextButtonLogic at currentPage totalPages leaves currentPage and the
scroll map unchanged but still runs the history synchronization block: when
totalPages already has a shadow entry it sets bypassPopState and issues a
forward navigation, otherwise it appends a shadow entry for totalPages,
persists it and issues a pushState. -/
theorem boundary_behavior_at_edges :
    (∀ (s : SurveyState) (y : Int), s.currentPage = 1 → backButtonLogic y s = (s, [])) ∧
    (∀ (s : SurveyState) (y : Int), s.currentPage = totalPages →
      nextButtonLogic y s =
        (if pageMem s.historyStates totalPages then
          ({ s with bypassPopState := true }, [NavEffect.forward])
        else
          (saveNavigationState
            { s with historyStates := s.historyStates ++ [{ page := totalPages }] },
           [NavEffect.pushState totalPages])) ∧
      (nextButtonLogic y s).1.currentPage = s.currentPage ∧
      (nextButtonLogic y s).1.scrollPositions = s.scrollPositions) := by
  constructor
  · intro s y h
    have hng : ¬(1 < s.currentPage ∧ s.currentPage < totalPages) := by
      rintro ⟨hgt, -⟩
      rw [h] at hgt
      exact absurd hgt (by decide)
    unfold backButtonLogic
    rw [if_neg hng]
  · intro s y h
    have hlt : ¬ s.currentPage < totalPages := by
      rw [h]
      exact lt_irrefl _
    have hadv : advancePhase y s = s := by
      unfold advancePhase
      rw [if_neg hlt]
    have hnext : nextButtonLogic y s = historySyncForward s := by
      rw [nextButtonLogic, hadv]
    by_cases hm : pageMem s.historyStates s.currentPage
    · have heq : nextButtonLogic y s
          = ({ s with bypassPopState := true }, [NavEffect.forward]) := by
        rw [hnext]
        unfold historySyncForward
        rw [if_pos hm]
      rw [h] at hm
      exact ⟨by rw [heq, if_pos hm], by rw [heq], by rw [heq]⟩
    · have heq : nextButtonLogic y s
          = (saveNavigationState
              { s with historyStates := s.historyStates ++ [{ page := s.currentPage }] },
             [NavEffect.pushState s.currentPage]) := by
        rw [hnext]
        unfold historySyncForward
        rw [if_neg hm]
        rfl
      rw [h] at hm heq
      refine ⟨?_, ?_, ?_⟩
      · rw [heq, if_neg hm, h]
      · rw [heq, h]
        rfl
      · rw [heq]
        rfl

/-- Witness for claim C1: the amended theorem applied at the initial state,
where backButtonLogic is a complete no-op. -/
theorem boundary_behavior_at_edges_witness :
    backButtonLogic 0 initialSurveyState = (initialSurveyState, []) :=
  boundary_behavior_at_edges.1 initialSurveyState 0 rfl

/-- Counterexample for claim C1 as stated: on the terminal page with every
page visited and the suppression flag clear, nextButtonLogic is not a no-op:
it flips bypassPopState to true and issues a forward navigation. -/
theorem nextButton_at_terminal_not_noop :
    terminalStateWithHistory.currentPage = totalPages ∧
    terminalStateWithHistory.bypassPopState = false ∧
    (nextButtonLogic 0 terminalStateWithHistory).1.bypassPopState = true ∧
    (nextButtonLogic 0 terminalStateWithHistory).2 = [NavEffect.forward] := by
  decide

/-- Claim C3: while bypassPopState is set, handlePopState only clears the
flag: the state is otherwise untouched, no navigation effect is issued, and
the resulting flag is false, so the next notification is handled normally. -/
theorem popstate_flag_single_shot (e : Int) (c : Bool) (y : Int) (s : SurveyState)
    (h : s.bypassPopState = true) :
    handlePopState e c y s = ({ s with bypassPopState := false }, []) ∧
    (handlePopState e c y s).1.bypassPopState = false := by
  have heq : handlePopState e c y s = ({ s with bypassPopState := false }, []) := by
    unfold handlePopState
    rw [if_pos h]
  exact ⟨heq, by rw [heq]⟩

/-- Witness for claim C3: concrete session on page 1 with the flag set. -/
theorem popstate_flag_single_shot_witness :
    handlePopState 2 false 0 flaggedPageOneState
      = ({ flaggedPageOneState with bypassPopState := false }, []) ∧
    (handlePopState 2 false 0 flaggedPageOneState).1.bypassPopState = false :=
  popstate_flag_single_shot 2 false 0 flaggedPageOneState rfl

/-- Claim C4: with the flag clear and neither the consent case nor the
terminal case applying, a popstate whose destination page is smaller than
currentPage decrements currentPage by exactly one and one whose destination
page is larger increments it by exactly one, in both cases without touching
the historyStates shadow stack. -/
theorem popstate_direction_step (e : Int) (c : Bool) (y : Int) (s : SurveyState)
    (h1 : s.bypassPopState = false)
    (h2 : ¬(s.currentPage = 1 ∧ e = 2 ∧ c = false))
    (h3 : s.currentPage ≠ totalPages) :
    (e < s.currentPage →
      (handlePopState e c y s).1.currentPage = s.currentPage - 1 ∧
      (handlePopState e c y s).1.historyStates = s.historyStates) ∧
    (s.currentPage < e →
      (handlePopState e c y s).1.currentPage = s.currentPage + 1 ∧
      (handlePopState e c y s).1.historyStates = s.historyStates) := by
  have hb : ¬ s.bypassPopState = true := by
    rw [h1]
    exact Bool.false_ne_true
  constructor
  · intro hlt
    have heq : (handlePopState e c y s).1
        = saveNavigationState
            { saveScrollPositions y s.currentPage s with
              currentPage := (saveScrollPositions y s.currentPage s).currentPage - 1 } := by
      unfold handlePopState
      rw [if_neg hb, if_neg h2, if_neg h3, if_pos hlt]
    rw [heq, saveNavigationState_currentPage, saveNavigationState_historyStates]
    constructor
    · show (saveScrollPositions y s.currentPage s).currentPage - 1 = s.currentPage - 1
      rw [saveScrollPositions_currentPage]
    · show (saveScrollPositions y s.currentPage s).historyStates = s.historyStates
      rw [saveScrollPositions_historyStates]
  · intro hgt
    have hnl : ¬ e < s.currentPage := not_lt_of_gt hgt
    have heq : (handlePopState e c y s).1
        = saveNavigationState
            { saveScrollPositions y s.currentPage s with
              currentPage := (saveScrollPositions y s.currentPage s).currentPage + 1 } := by
      unfold handlePopState
      rw [if_neg hb, if_neg h2, if_neg h3, if_neg hnl]
    rw [heq, saveNavigationState_currentPage, saveNavigationState_historyStates]
    constructor
    · show (saveScrollPositions y s.currentPage s).currentPage + 1 = s.currentPage + 1
      rw [saveScrollPositions_currentPage]
    · show (saveScrollPositions y s.currentPage s).historyStates = s.historyStates
      rw [saveScrollPositions_historyStates]

/-- Witness for claim C4: a session on page 5 receiving a popstate whose
destination entry carries page 4 retreats to page 4. -/
theorem popstate_direction_step_witness :
    (4 : Int) < ({ terminalStateWithHistory with currentPage := 5 } : SurveyState).currentPage ∧
    (handlePopState 4 true 0 { terminalStateWithHistory with currentPage := 5 }).1.currentPage
      = ({ terminalStateWithHistory with currentPage := 5 } : SurveyState).currentPage - 1 := by
  refine ⟨by decide, ?_⟩
  exact ((popstate_direction_step 4 true 0 { terminalStateWithHistory with currentPage := 5 }
    rfl (by decide) (by decide)).1 (by decide)).1

/-- Claim C5: a popstate arriving on the terminal page with the flag clear
detaches the popstate listener, issues one backward counter-navigation and
leaves currentPage at totalPages; every later popstate notification leaves
the state (hence currentPage) completely unchanged. -/
theorem terminal_popstate_detaches (ev : PopEvent) (evs : List PopEvent) (s : SurveyState)
    (h1 : s.bypassPopState = false) (h2 : s.currentPage = totalPages)
    (h3 : s.popStateListenerAttached = true) :
    dispatchPopState ev s
      = ({ s with popStateListenerAttached := false }, [NavEffect.back]) ∧
    (dispatchPopState ev s).1.currentPage = totalPages ∧
    runPopEvents evs (dispatchPopState ev s).1 = (dispatchPopState ev s).1 := by
  have hb : ¬ s.bypassPopState = true := by
    rw [h1]
    exact Bool.false_ne_true
  have hc : ¬(s.currentPage = 1 ∧ ev.page = 2 ∧ ev.consentIsChecked = false) := by
    rintro ⟨hc1, -⟩
    rw [h2] at hc1
    exact absurd hc1 (by decide)
  have heq : dispatchPopState ev s
      = ({ s with popStateListenerAttached := false }, [NavEffect.back]) := by
    unfold dispatchPopState
    rw [if_pos h3]
    unfold handlePopState
    rw [if_neg hb, if_neg hc, if_pos h2]
  refine ⟨heq, ?_, ?_⟩
  · rw [heq]
    exact h2
  · rw [heq]
    exact runPopEvents_detached evs _ rfl

/-- Witness for claim C5: terminal session, browser-back pressed once, then
once more: the second press changes nothing. -/
theorem terminal_popstate_detaches_witness :
    dispatchPopState { page := 8, consentIsChecked := true, scrollY := 0 }
        terminalStateWithHistory
      = ({ terminalStateWithHistory with popStateListenerAttached := false },
         [NavEffect.back]) ∧
    (dispatchPopState { page := 8, consentIsChecked := true, scrollY := 0 }
        terminalStateWithHistory).1.currentPage = totalPages ∧
    runPopEvents [{ page := 8, consentIsChecked := true, scrollY := 0 }]
        (dispatchPopState { page := 8, consentIsChecked := true, scrollY := 0 }
          terminalStateWithHistory).1
      = (dispatchPopState { page := 8, consentIsChecked := true, scrollY := 0 }
          terminalStateWithHistory).1 :=
  terminal_popstate_detaches { page := 8, consentIsChecked := true, scrollY := 0 }
    [{ page := 8, consentIsChecked := true, scrollY := 0 }]
    terminalStateWithHistory rfl rfl rfl

/-- Claim C6 (amended): with the suppression flag clear, a popstate on page
1 whose destination entry carries page 2 while the consent checkbox is
unchecked sets the suppression flag, issues one backward counter-navigation
and leaves currentPage at 1. -/
theorem consent_guard_popstate (y : Int) (s : SurveyState)
    (h1 : s.bypassPopState = false) (h2 : s.currentPage = 1) :
    handlePopState 2 false y s = ({ s with bypassPopState := true }, [NavEffect.back]) ∧
    (handlePopState 2 false y s).1.currentPage = 1 := by
  have hb : ¬ s.bypassPopState = true := by
    rw [h1]
    exact Bool.false_ne_true
  have heq : handlePopState 2 false y s
      = ({ s with bypassPopState := true }, [NavEffect.back]) := by
    unfold handlePopState
    rw [if_neg hb, if_pos ⟨h2, rfl, rfl⟩]
  refine ⟨heq, ?_⟩
  rw [heq]
  exact h2

/-- Witness for claim C6: the amended theorem at the fresh initial state. -/
theorem consent_guard_popstate_witness :
    handlePopState 2 false 0 initialSurveyState
      = ({ initialSurveyState with bypassPopState := true }, [NavEffect.back]) ∧
    (handlePopState 2 false 0 initialSurveyState).1.currentPage = 1 :=
  consent_guard_popstate 0 initialSurveyState rfl rfl

/-- Counterexample for claim C6 as stated: on page 1 with destination page 2
and consent unchecked but the suppression flag already set, handlePopState
clears the flag instead of setting it and issues no counter-navigation. -/
theorem consent_guard_flag_shadowed :
    flaggedPageOneState.currentPage = 1 ∧
    flaggedPageOneState.bypassPopState = true ∧
    handlePopState 2 false 0 flaggedPageOneState
      = ({ flaggedPageOneState with bypassPopState := false }, []) ∧
    ¬((handlePopState 2 false 0 flaggedPageOneState).1.bypassPopState = true) ∧
    (handlePopState 2 false 0 flaggedPageOneState).2 = [] := by
  decide

/-- Claim C7: along every operation sequence of the navigation state machine
from the initial state, the shadow stack holds at most one entry per page
value: the number of distinct page values equals the stack length. -/
theorem shadow_stack_no_duplicate_pages (ops : List SurveyOp) :
    (pagesOf (runOps ops).historyStates).dedup.length
      = (runOps ops).historyStates.length := by
  have hgen : ∀ (l : List SurveyOp) (s : SurveyState),
      (pagesOf s.historyStates).Nodup →
      (pagesOf (l.foldl applyOp s).historyStates).Nodup := by
    intro l
    induction l with
    | nil =>
      intro s hs
      exact hs
    | cons op rest ih =>
      intro s hs
      exact ih _ (applyOp_nodup s op hs)
  have h : (pagesOf (runOps ops).historyStates).Nodup := by
    rw [runOps]
    exact hgen ops initialSurveyState (by simp [initialSurveyState, pagesOf])
  rw [List.dedup_eq_self.mpr h, pagesOf, List.length_map]

/-- Claim C2: when the message key is already recorded, the /sendmessage
handler answers with the previously stored server message id, performs no
outbound call and leaves the dedup map untouched; a fresh key with a
successful outbound send records an entry, so an immediate second send of
the same key answers the same id with zero outbound calls — one outbound
send in total; a failed outbound send records no entry, so a later retry of
the same key is attempted again (it performs an outbound call). -/
theorem sendmessage_dedup_idempotent :
    (∀ (s : RelayState) (cid mid : String) (now : Int)
        (r : Except String String) (entry : DedupEntry),
      mapGet s.processedMessages (messageKey cid mid) = some entry →
      sendMessage s cid mid now r = (SendHttpResponse.duplicateJson entry.id, 0, s)) ∧
    (∀ (s : RelayState) (cid mid : String) (n1 n2 : Int) (sid : String)
        (r2 : Except String String),
      mapGet s.processedMessages (messageKey cid mid) = none →
      sendMessage s cid mid n1 (Except.ok sid)
        = (SendHttpResponse.dataJson sid, 1,
           { processedMessages :=
               mapSet s.processedMessages (messageKey cid mid)
                 { timestamp := n1, id := sid } }) ∧
      sendMessage (sendMessage s cid mid n1 (Except.ok sid)).2.2 cid mid n2 r2
        = (SendHttpResponse.duplicateJson sid, 0,
           (sendMessage s cid mid n1 (Except.ok sid)).2.2)) ∧
    (∀ (s : RelayState) (cid mid : String) (now : Int) (msg : String) (r : Except String String),
      mapGet s.processedMessages (messageKey cid mid) = none →
      sendMessage s cid mid now (Except.error msg)
        = (SendHttpResponse.serverError msg, 1, s) ∧
      (sendMessage s cid mid now r).2.1 = 1) := by
  refine ⟨?_, ?_, ?_⟩
  · intro s cid mid now r entry hget
    simp [sendMessage, hget]
  · intro s cid mid n1 n2 sid r2 hget
    have h1 : sendMessage s cid mid n1 (Except.ok sid)
        = (SendHttpResponse.dataJson sid, 1,
           { processedMessages :=
               mapSet s.processedMessages (messageKey cid mid)
                 { timestamp := n1, id := sid } }) := by
      simp [sendMessage, hget]
    refine ⟨h1, ?_⟩
    rw [h1]
    simp [sendMessage, mapGet_mapSet_self]
  · intro s cid mid now msg r hget
    constructor
    · simp [sendMessage, hget]
    · cases r with
      | ok sid => simp [sendMessage, hget]
      | error m => simp [sendMessage, hget]

/-- Witness for claim C2: two sequential sends of the same logical message
from an empty relay state yield the same server message id and exactly one
outbound call in total. -/
theorem sendmessage_dedup_idempotent_witness :
    sendMessage { processedMessages := [] } "c1" "m1" 0 (Except.ok "sid1")
      = (SendHttpResponse.dataJson "sid1", 1,
         { processedMessages :=
             mapSet [] (messageKey "c1" "m1") { timestamp := 0, id := "sid1" } }) ∧
    sendMessage (sendMessage { processedMessages := [] } "c1" "m1" 0 (Except.ok "sid1")).2.2
        "c1" "m1" 1 (Except.ok "other")
      = (SendHttpResponse.duplicateJson "sid1", 0,
         (sendMessage { processedMessages := [] } "c1" "m1" 0 (Except.ok "sid1")).2.2) :=
  sendmessage_dedup_idempotent.2.1 { processedMessages := [] } "c1" "m1" 0 1 "sid1"
    (Except.ok "other") rfl

/-- Claim C8: submitData makes at most retries fetch attempts; the first
success is returned (after a 500 ms delay for each preceding failure); when
every attempt fails the last encountered error is thrown after retries
attempts; and in that exhaustion case submitButtonLogic only raises the
failure notification: the navigation state (currentPage, shadow stack,
scroll map, persisted session state) is unchanged, clearState does not run
and no navigation effect is issued. -/
theorem submit_retry_bounded_and_failure_safe :
    (∀ (results : Nat → Except String String) (retries : Nat),
      (submitData results retries).2.1 ≤ retries) ∧
    (∀ (results : Nat → Except String String) (retries k : Nat) (v : String),
      (∀ j, j < k → ∃ e, results j = Except.error e) →
      results k = Except.ok v → k < retries →
      submitData results retries = (Except.ok v, k + 1, 500 * k)) ∧
    (∀ (results : Nat → Except String String) (retries : Nat),
      1 ≤ retries →
      (∀ j, j < retries → ∃ e, results j = Except.error e) →
      ∃ e, results (retries - 1) = Except.error e ∧
        submitData results retries = (Except.error (some e), retries, 500 * retries)) ∧
    (∀ (results : Nat → Except String String) (y : Int) (s : SurveyState),
      (∀ j, j < 4 → ∃ e, results j = Except.error e) →
      submitButtonLogic results y s
        = { finalState := s, submitErrorShown := true, stateCleared := false,
            navEffects := [] }) := by
  refine ⟨?_, ?_, ?_, ?_⟩
  · intro results retries
    exact submitDataAux_attempts_le results retries 0 none
  · intro results retries k v hf hok hlt
    rw [submitData]
    exact submitDataAux_first_ok results k 0 retries none v
      (fun j hj => by simpa using hf j hj) (by simpa using hok) hlt
  · intro results retries h1 hf
    obtain ⟨e, he, heq⟩ := submitDataAux_all_err results retries 0 none h1
      (fun j hj => by simpa using hf j hj)
    exact ⟨e, by simpa using he, by rw [submitData]; exact heq⟩
  · intro results y s hf
    obtain ⟨e, -, heq⟩ := submitDataAux_all_err results 4 0 none (by decide)
      (fun j hj => by simpa using hf j hj)
    have hsub : (submitData results 4).1 = Except.error (some e) := by
      rw [submitData, heq]
    unfold submitButtonLogic
    rw [hsub]

/-- Witness for claim C8: four consecutive network failures leave the
initial state untouched and surface the error notification. -/
theorem submit_retry_bounded_and_failure_safe_witness :
    submitButtonLogic alwaysFailResults 0 initialSurveyState
      = { finalState := initialSurveyState, submitErrorShown := true,
          stateCleared := false, navEffects := [] } :=
  submit_retry_bounded_and_failure_safe.2.2.2 alwaysFailResults 0 initialSurveyState
    (fun _ _ => ⟨"network failure", rfl⟩)

/-- Claim C9 (amended): restoreState keeps the defaults (currentPage 1,
empty shadow stack, empty scroll map) only when the corresponding stored
items are absent (or, for currentPage, the empty string); a present
non-empty currentPage string is assigned parseInt(value, 10) without
validation; present historyStates and scrollPositions items are restored. -/
theorem restoreState_fallback_behavior (st : SessionStorageNav) :
    ((st.currentPageItem = none ∨ st.currentPageItem = some "") →
      restoreState st =
        { currentPageVal := some 1
          historyStatesVal := st.historyStatesItem.getD []
          scrollPositionsVal := st.scrollPositionsItem.getD [] }) ∧
    (∀ str, st.currentPageItem = some str → ¬ str = "" →
      (restoreState st).currentPageVal = parseIntJs str) ∧
    (restoreState st).historyStatesVal = st.historyStatesItem.getD [] ∧
    (restoreState st).scrollPositionsVal = st.scrollPositionsItem.getD [] := by
  refine ⟨?_, ?_, rfl, rfl⟩
  · rintro (h | h) <;> simp [restoreState, h]
  · intro str h hne
    simp [restoreState, h, hne]

/-- Witness for claim C9: empty session storage restores the defaults, and
a stored numeral is parsed. -/
theorem restoreState_fallback_behavior_witness :
    restoreState { currentPageItem := none, historyStatesItem := none,
                   scrollPositionsItem := none }
      = { currentPageVal := some 1, historyStatesVal := [], scrollPositionsVal := [] } ∧
    (restoreState { currentPageItem := some "5", historyStatesItem := none,
                    scrollPositionsItem := none }).currentPageVal = parseIntJs "5" :=
  ⟨(restoreState_fallback_behavior _).1 (Or.inl rfl),
   (restoreState_fallback_behavior _).2.1 "5" rfl (by decide)⟩

/-- Counterexample for claim C9 as stated: a present but invalid stored
currentPage value such as "abc" is not treated as absence: parseInt yields
NaN and restoreState installs NaN instead of keeping the default page 1. -/
theorem restoreState_invalid_page_not_default :
    parseIntJs "abc" = none ∧
    (restoreState { currentPageItem := some "abc", historyStatesItem := none,
                    scrollPositionsItem := none }).currentPageVal = none ∧
    ¬((restoreState { currentPageItem := some "abc", historyStatesItem := none,
                      scrollPositionsItem := none }).currentPageVal = some 1) := by
  refine ⟨by decide, by decide, by decide⟩

/-- Claim C10: the /submit guard rejects any falsy field, so a request body
whose treatmentGroup is the number 0 — a treatment group value the server
itself can issue via assignGroup — receives status 400 and no database row
is inserted; an empty conversationLog string is rejected the same way. -/
theorem submit_guard_rejects_falsy (body : SubmitBody) (dbOk : Bool) :
    (body.treatmentGroup = JsValue.numV 0 → appPostSubmit body dbOk = (400, none)) ∧
    (body.conversationLog = JsValue.strV "" → appPostSubmit body dbOk = (400, none)) ∧
    assignGroup true = 0 := by
  refine ⟨?_, ?_, rfl⟩
  · intro h
    have hc : (jsFalsy body.participantId || jsFalsy body.treatmentGroup
        || jsFalsy body.conversationLog) = true := by
      rw [h]
      simp [jsFalsy]
    unfold appPostSubmit
    rw [if_pos hc]
  · intro h
    have hc : (jsFalsy body.participantId || jsFalsy body.treatmentGroup
        || jsFalsy body.conversationLog) = true := by
      rw [h]
      simp [jsFalsy]
    unfold appPostSubmit
    rw [if_pos hc]

/-- Witness for claim C10: a concrete body with treatmentGroup 0 and a
non-empty log is rejected with 400 and nothing is inserted. -/
theorem submit_guard_rejects_falsy_witness :
    appPostSubmit { participantId := JsValue.strV "ID-A",
                    treatmentGroup := JsValue.numV 0,
                    conversationLog := JsValue.strV "log" } true = (400, none) :=
  (submit_guard_rejects_falsy
    { participantId := JsValue.strV "ID-A", treatmentGroup := JsValue.numV 0,
      conversationLog := JsValue.strV "log" } true).1 rfl

end SurveyWeb
